import Mathlib

/-!
Verification development for the basic_ango_agents repository: shallow
embeddings of the four scripts' startup checks and top-level control flow
(src/arxiv_genius_agent.py, src/researcher.py, src/fact_checker.py,
src/recommender.py), together with spec-level models of the orchestration
core (RetryPolicy, FallbackChain, Orchestrator, ResponseValidator) that the
scripts configure through the external agno library.
-/

/-! ## Startup credential checks -/

/-- What a script's top-level prologue does before any agent run: either
proceed to the run, or terminate the process with an exit code after
printing a diagnostic. -/
inductive StartupAction where
  | proceed
  | exitWith (code : Nat) (diagnostic : String)
deriving DecidableEq

/-- Startup of src/arxiv_genius_agent.py lines 8-11: `api_key =
os.getenv("GOOGLE_API_KEY"); if not api_key: print(...); exit(1)`.
A missing variable is `none`; Python's `not api_key` is true exactly when
the variable is absent or the empty string. -/
def arxiv_startup (googleApiKey : Option String) : StartupAction :=
  if googleApiKey.getD "" = "" then
    .exitWith 1 "🔴 ERROR: Set your GOOGLE_API_KEY environment variable"
  else .proceed

/-- Startup of src/researcher.py lines 12-17: `if not
os.getenv("GOOGLE_API_KEY"): print(...); exit(1)` (first printed line kept
as the diagnostic). -/
def researcher_startup (googleApiKey : Option String) : StartupAction :=
  if googleApiKey.getD "" = "" then
    .exitWith 1 "❌ Error: GOOGLE_API_KEY environment variable is not set!"
  else .proceed

/-- Startup of src/fact_checker.py: the script has no credential check at
all; its `__main__` (lines 51-61) goes straight to the agent run. -/
def fact_checker_startup (_googleApiKey : Option String) : StartupAction :=
  .proceed

/-- Startup of src/recommender.py: the script has no credential check at
all; its `__main__` (lines 51-75) goes straight to the agent run. -/
def recommender_startup (_googleApiKey : Option String) : StartupAction :=
  .proceed

/-- The property claim C1 asserts of a script's startup: whenever
GOOGLE_API_KEY is absent or empty, the process exits with a non-zero
status (and a diagnostic), so the run is never reached. -/
def checksCredential (startup : Option String → StartupAction) : Prop :=
  ∀ key : Option String, key.getD "" = "" →
    ∃ c d, c ≠ 0 ∧ startup key = .exitWith c d

/-! ## The arxiv_genius_agent fallback chain (`__main__`, lines 114-151) -/

/-- Outcome of one external call (an agent run or a knowledge-base load):
it either completes or raises a Python exception with a message. -/
inductive CallOutcome where
  | ok
  | raises (msg : String)
deriving DecidableEq

/-- The behaviours of the external calls issued by the `__main__` block of
src/arxiv_genius_agent.py: the ArxivTools agent run, the knowledge-base
load, the knowledge-base agent run, and the general-knowledge fallback
run. -/
structure ArxivWorld where
  agentRun : CallOutcome
  kbLoad : CallOutcome
  kbRun : CallOutcome
  fallbackRun : CallOutcome
deriving DecidableEq

/-- Observable events of the `__main__` block: a strategy invocation with
its prompt text (freshState records that the strategy runs on a newly
constructed Agent with no prior conversation), the knowledge-base load
with its `recreate` argument, a logged (caught and printed) failure, and
an exception escaping uncaught. -/
inductive Event where
  | strategyCall (prompt : String) (freshState : Bool)
  | kbLoadCall (recreate : Bool)
  | failureLogged (msg : String)
  | uncaughtException (msg : String)
deriving DecidableEq

/-- How the script invocation ends: some strategy's run completed (named
by its prompt), or an exception escaped and the process crashed. -/
inductive ChainOutcome where
  | succeeded (byPrompt : String)
  | crashed (msg : String)
deriving DecidableEq

/-- The paper title fixed in `__main__` (line 115). -/
def paper_title : String := "Attention is All You Need"

/-- Prompt of the first strategy (line 121). -/
def prompt1 : String := "Analyze the paper: " ++ paper_title

/-- Prompt of the knowledge-base strategy (lines 135-137). -/
def prompt2 : String := "Tell me about the '" ++ paper_title ++ "' paper"

/-- Prompt of the general-knowledge fallback strategy (lines 146-150). -/
def prompt3 : String :=
  "Based on your knowledge, create handnotes for the paper '" ++ paper_title
    ++ "' using the format I specified earlier. Focus on the transformer architecture "
    ++ "and attention mechanism."

/-- Third strategy (lines 144-151): a fresh no-tool agent is run with
`prompt3`; this call sits in no `try` block, so an exception it raises
escapes the process. -/
def fallbackPart (e3 : CallOutcome) : List Event × ChainOutcome :=
  match e3 with
  | .ok => ([.strategyCall prompt3 true], .succeeded prompt3)
  | .raises m => ([.strategyCall prompt3 true, .uncaughtException m], .crashed m)

/-- Second strategy (lines 127-141): build the knowledge-base agent, load
the vector store with `recreate=True`, then query it with `prompt2`; any
exception in the block is caught, printed, and control falls through to
the third strategy. -/
def kbPart (w : ArxivWorld) : List Event × ChainOutcome :=
  match w.kbLoad with
  | .raises m =>
      let f := fallbackPart w.fallbackRun
      (Event.kbLoadCall true :: Event.failureLogged m :: f.1, f.2)
  | .ok =>
      match w.kbRun with
      | .ok => ([.kbLoadCall true, .strategyCall prompt2 true], .succeeded prompt2)
      | .raises m =>
          let f := fallbackPart w.fallbackRun
          (Event.kbLoadCall true :: Event.strategyCall prompt2 true ::
              Event.failureLogged m :: f.1, f.2)

/-- The whole `__main__` block of src/arxiv_genius_agent.py (lines
114-151): try the ArxivTools agent with `prompt1`; on an exception, log it
and run the knowledge-base strategy; on its exception, log it and run the
general-knowledge fallback. Returns the event trace and the final
outcome. -/
def arxivRun (w : ArxivWorld) : List Event × ChainOutcome :=
  match w.agentRun with
  | .ok => ([.strategyCall prompt1 true], .succeeded prompt1)
  | .raises m =>
      let k := kbPart w
      (Event.strategyCall prompt1 true :: Event.failureLogged m :: k.1, k.2)

/-- Whether a call raised. -/
def CallOutcome.fails : CallOutcome → Bool
  | .ok => false
  | .raises _ => true

/-- Whether the knowledge-base strategy as a whole fails (its load or its
query raises). -/
def kbFails (w : ArxivWorld) : Bool :=
  match w.kbLoad with
  | .raises _ => true
  | .ok => w.kbRun.fails

/-- Number of caught-and-printed failures in a trace. -/
def countLogged : List Event → Nat
  | [] => 0
  | .failureLogged _ :: rest => countLogged rest + 1
  | _ :: rest => countLogged rest

/-- Number of uncaught exceptions in a trace. -/
def countUncaught : List Event → Nat
  | [] => 0
  | .uncaughtException _ :: rest => countUncaught rest + 1
  | _ :: rest => countUncaught rest

/-- Every strategy invocation in the trace starts from a fresh
conversation state. -/
def allFresh : List Event → Bool
  | [] => true
  | .strategyCall _ f :: rest => f && allFresh rest
  | _ :: rest => allFresh rest

/-- Does the char list `pat` start `text`? -/
def leadsWith : List Char → List Char → Bool
  | [], _ => true
  | _ :: _, [] => false
  | p :: ps, c :: cs => p = c && leadsWith ps cs

/-- Does the char list `pat` occur contiguously inside `text`? -/
def occursIn (pat text : List Char) : Bool :=
  match text with
  | [] => pat.isEmpty
  | _ :: rest => leadsWith pat text || occursIn pat rest

/-! ## The researcher script's `__main__` (src/researcher.py lines 82-122) -/

/-- The paper URL fixed in researcher.py `__main__` (line 84). -/
def paper_url : String := "https://arxiv.org/abs/1706.03762"

/-- What `research_agent.run(paper_url, ...)` comes back with: it raises,
or it returns a response whose `content` is a `ResearchPaperNotes`
instance, or a response whose content is something else. -/
inductive ResearcherRunOutcome where
  | raises (msg : String)
  | returnsNotes
  | returnsOther
deriving DecidableEq

/-- Observable events of researcher.py's `__main__`. -/
inductive ScriptEvent where
  | strategyAttempt (prompt : String)
  | printedNotes
  | printedFormatError
  | printedDiagnostic (msg : String)
deriving DecidableEq

/-- The `__main__` block of src/researcher.py (lines 82-122): one
`research_agent.run` call inside a single try/except; an exception is
printed and the script falls off the end (process exit status 0); there
is no second agent or retry at this level. Returns the event trace and
the process exit status. -/
def researcherMain (o : ResearcherRunOutcome) : List ScriptEvent × Nat :=
  match o with
  | .returnsNotes => ([.strategyAttempt paper_url, .printedNotes], 0)
  | .returnsOther => ([.strategyAttempt paper_url, .printedFormatError], 0)
  | .raises m =>
      ([.strategyAttempt paper_url,
        .printedDiagnostic ("❌ Error occurred: " ++ m)], 0)

/-- Number of strategy attempts in a researcher trace. -/
def countAttempts : List ScriptEvent → Nat
  | [] => 0
  | .strategyAttempt _ :: rest => countAttempts rest + 1
  | _ :: rest => countAttempts rest

/-! ## Spec-level model of the orchestration core

The scripts configure agents through the external agno library; the
spec's §3-§4.7 describe the execution core those agents share. The
definitions below are modelled from the spec because that core's
implementation is not part of the repository's source tree. -/

/-- Modelled from the spec: the failure taxonomy of §7. -/
inductive FailureKind where
  | Unavailable
  | RateLimited
  | Malformed
  | UnknownTool
  | ToolExecutionError
  | IterationLimitExceeded
  | SchemaViolation
  | RetriesExhausted
  | AllStrategiesExhausted
  | MissingCredential
deriving DecidableEq

/-- Modelled from the spec: `RunResult` of §3, the terminal outcome of a
run — exactly one of `Success(payload)` or `Failure(kind, message)`. -/
inductive RunResult (α : Type) where
  | Success (payload : α)
  | Failure (kind : FailureKind) (message : String)
deriving DecidableEq

/-- Modelled from the spec: one turn of the `ConversationState` of §3. -/
inductive Turn where
  | callerInput (text : String)
  | toolResult (tool : String) (output : String)
deriving DecidableEq

/-- Modelled from the spec: `ModelStep` of §4.2 — the model either
requests a tool invocation or produces a final answer (streamed
`TextChunk` delivery does not affect the loop's control flow). -/
inductive ModelStep where
  | toolCall (tool : String) (args : String)
  | finalAnswer (text : String)
deriving DecidableEq

/-- Result of the Orchestrator loop, carrying the number of tool-call
round-trips actually performed. -/
inductive LoopResult where
  | done (answer : String) (roundTrips : Nat)
  | failed (kind : FailureKind) (roundTrips : Nat)
deriving DecidableEq

/-- Round-trips performed by a finished loop. -/
def LoopResult.rounds : LoopResult → Nat
  | .done _ n => n
  | .failed _ n => n

/-- Modelled from the spec: the Orchestrator tool-call loop of §4.4.
`fuel` is the remaining tool-call budget, `used` the round-trips already
performed. A `finalAnswer` ends the loop; a tool request with no budget
left ends it with `IterationLimitExceeded`; a request naming a tool absent
from the registry ends it with `UnknownTool` (not retried, §3); otherwise
the tool runs, its result is appended to the conversation, and the loop
continues. -/
def orchLoop (model : List Turn → ModelStep)
    (dispatch : String → Option (String → String)) :
    Nat → List Turn → Nat → LoopResult
  | 0, conv, used =>
      match model conv with
      | .finalAnswer t => .done t used
      | .toolCall _ _ => .failed .IterationLimitExceeded used
  | fuel + 1, conv, used =>
      match model conv with
      | .finalAnswer t => .done t used
      | .toolCall tool args =>
          match dispatch tool with
          | none => .failed .UnknownTool used
          | some f =>
              orchLoop model dispatch fuel
                (conv ++ [.toolResult tool (f args)]) (used + 1)

/-- Modelled from the spec: one full orchestrated run — seed the
conversation with the caller input and run the loop under the configured
iteration cap. -/
def orchRun (model : List Turn → ModelStep)
    (dispatch : String → Option (String → String))
    (cap : Nat) (input : String) : LoopResult :=
  orchLoop model dispatch cap [.callerInput input] 0

/-- Modelled from the spec: which failures RetryPolicy retries (§4.6) —
`Unavailable` and `RateLimited` always, `Malformed` only if not already
seen once; everything else (in particular `UnknownTool`) never. -/
def retryableAfter : FailureKind → Bool → Bool
  | .Unavailable, _ => true
  | .RateLimited, _ => true
  | .Malformed, malSeen => !malSeen
  | _, _ => false

/-- Modelled from the spec: the RetryPolicy loop of §4.6. `attempt k` is
the k-th attempt's outcome; returns how many attempts were made together
with the final result. A retryable failure with attempts remaining leads
to another attempt; exhausting `max_attempts` yields
`Failure(RetriesExhausted, lastError)`; a non-retryable failure is
returned as is after a single attempt. -/
def retryAux (attempt : Nat → RunResult String) :
    Nat → Bool → Nat → Nat × RunResult String
  | _, _, 0 => (0, .Failure .RetriesExhausted "no attempts permitted")
  | k, malSeen, remaining + 1 =>
      match attempt k with
      | .Success p => (1, .Success p)
      | .Failure kind msg =>
          if retryableAfter kind malSeen then
            match remaining with
            | 0 => (1, .Failure .RetriesExhausted msg)
            | r + 1 =>
                let next :=
                  retryAux attempt (k + 1)
                    (malSeen || (if kind = .Malformed then true else false))
                    (r + 1)
                (next.1 + 1, next.2)
          else (1, .Failure kind msg)

/-- Modelled from the spec: `run_with_retry` of §4.6, attempts numbered
from 1. -/
def runWithRetry (attempt : Nat → RunResult String) (maxAttempts : Nat) :
    Nat × RunResult String :=
  retryAux attempt 1 false maxAttempts

/-- Modelled from the spec: delay before attempt k (k ≥ 2) is
`base_delay * backoff_multiplier^(k-2)` (§4.6). -/
def backoffDelay (base_delay backoff_multiplier k : Nat) : Nat :=
  base_delay * backoff_multiplier ^ (k - 2)

/-- The delays actually slept across a run of `attempts` attempts: one
entry per transition k → k+1, i.e. the delays before attempts 2 ..
attempts; nothing precedes attempt 1. -/
def delaySequence (base mult attempts : Nat) : List Nat :=
  (List.range (attempts - 1)).map (fun i => backoffDelay base mult (i + 2))

/-- Retry configuration of the ArxivTools agent, from
src/arxiv_genius_agent.py lines 57-60: `exponential_backoff=True,
delay_between_retries=3, retries=3`. -/
def arxivRetryBase : Nat := 3

/-- `retries=3` from src/arxiv_genius_agent.py line 60. -/
def arxivRetryAttempts : Nat := 3

/-! ## Output schemas and their validation

The schemas themselves are declared in the source (pydantic models with
every field required via `Field(...)`); the validation engine that
enforces them is external, so the validators are modelled from the spec's
ResponseValidator contract (§4.5). -/

/-- The `ResearchPaperNotes` schema of src/researcher.py lines 22-49: six
required fields. -/
structure ResearchPaperNotes where
  title : String
  tldr : String
  key_contributions : List String
  methodology_simplified : String
  impact_and_significance : String
  original_paper_url : String
deriving DecidableEq

/-- A model output aimed at `ResearchPaperNotes` before validation: any
of the six declared fields may be missing. -/
structure RawNotes where
  title : Option String
  tldr : Option String
  key_contributions : Option (List String)
  methodology_simplified : Option String
  impact_and_significance : Option String
  original_paper_url : Option String
deriving DecidableEq

/-- All six required fields of the notes schema are present. -/
def allNotesPresent (r : RawNotes) : Bool :=
  r.title.isSome && r.tldr.isSome && r.key_contributions.isSome &&
    r.methodology_simplified.isSome && r.impact_and_significance.isSome &&
    r.original_paper_url.isSome

/-- Modelled from the spec: ResponseValidator (§4.5) for the
`ResearchPaperNotes` schema — every required field must be present, or
the whole result is a `SchemaViolation`; no partial object is ever
built. -/
def validateNotes (r : RawNotes) : RunResult ResearchPaperNotes :=
  match r.title, r.tldr, r.key_contributions, r.methodology_simplified,
      r.impact_and_significance, r.original_paper_url with
  | some t, some tl, some kc, some ms, some im, some u =>
      .Success ⟨t, tl, kc, ms, im, u⟩
  | _, _, _, _, _, _ => .Failure .SchemaViolation "missing required field"

/-- The `Recommendation` schema of src/recommender.py lines 12-21: four
required fields. -/
structure Recommendation where
  title : String
  year : Int
  summary : String
  reason : String
deriving DecidableEq

/-- A model output aimed at `Recommendation` before validation. -/
structure RawRecommendation where
  title : Option String
  year : Option Int
  summary : Option String
  reason : Option String
deriving DecidableEq

/-- The `RecommendationList` schema of src/recommender.py lines 24-29:
one required field holding a list of `Recommendation`. -/
structure RecommendationList where
  recommendations : List Recommendation
deriving DecidableEq

/-- A model output aimed at `RecommendationList` before validation: the
list itself may be missing, and each element may have missing fields. -/
structure RawRecommendationList where
  recommendations : Option (List RawRecommendation)
deriving DecidableEq

/-- All four required fields of one recommendation are present. -/
def allRecPresent (r : RawRecommendation) : Bool :=
  r.title.isSome && r.year.isSome && r.summary.isSome && r.reason.isSome

/-- Every element of a raw recommendation list has all fields present. -/
def allRecsPresent : List RawRecommendation → Bool
  | [] => true
  | r :: rs => allRecPresent r && allRecsPresent rs

/-- Modelled from the spec: ResponseValidator (§4.5) for one
`Recommendation` — all four required fields or nothing. -/
def validateRec (r : RawRecommendation) : Option Recommendation :=
  match r.title, r.year, r.summary, r.reason with
  | some t, some y, some s, some re => some ⟨t, y, s, re⟩
  | _, _, _, _ => none

/-- Modelled from the spec: element-wise validation of a recommendation
list — all elements validate or the whole list is rejected. -/
def validateRecs : List RawRecommendation → Option (List Recommendation)
  | [] => some []
  | r :: rs =>
      match validateRec r, validateRecs rs with
      | some v, some vs => some (v :: vs)
      | _, _ => none

/-- Modelled from the spec: ResponseValidator (§4.5) for the
`RecommendationList` schema. -/
def validateRecList (r : RawRecommendationList) : RunResult RecommendationList :=
  match r.recommendations with
  | none => .Failure .SchemaViolation "missing required field"
  | some l =>
      match validateRecs l with
      | none => .Failure .SchemaViolation "missing required field"
      | some v => .Success ⟨v⟩

/-- The raw recommendation list is fully populated: the list field is
present and every element has all its required fields. -/
def recListAllPresent (q : RawRecommendationList) : Bool :=
  match q.recommendations with
  | none => false
  | some l => allRecsPresent l

/-! ## Trace predicates for the arxiv fallback chain -/

/-- Is this event the knowledge-base query (the `prompt2` strategy
call)? -/
def isKbQuery : Event → Bool
  | .strategyCall p _ => p == prompt2
  | _ => false

/-- Is this event a knowledge-base load with `recreate=True`? -/
def isRecreateLoad : Event → Bool
  | .kbLoadCall true => true
  | _ => false

/-- Every event immediately preceding a knowledge-base query in the
trace is a `recreate=True` load. -/
def pairsOk : List Event → Bool
  | e1 :: e2 :: rest => (!(isKbQuery e2) || isRecreateLoad e1) && pairsOk (e2 :: rest)
  | _ => true

/-- The knowledge-base query, whenever it occurs, is immediately preceded
by a `recreate=True` load (and never opens the trace). -/
def kbFreshlyLoaded (t : List Event) : Bool :=
  (match t with
   | [] => true
   | e :: _ => !(isKbQuery e)) && pairsOk t

/-- The trace never loads the knowledge base with `recreate=False`. -/
def noStaleLoad : List Event → Bool
  | [] => true
  | .kbLoadCall false :: _ => false
  | _ :: rest => noStaleLoad rest

/-! ## Claim theorems -/

/-- Claim C1, counterexample: the fact_checker script performs no
credential check at all — with GOOGLE_API_KEY absent its prologue still
proceeds to the agent run instead of exiting, so the claim "for every
script in the repository ... exits with a non-zero status" is false. -/
theorem C1_counterexample : ¬ checksCredential fact_checker_startup := by
  intro h
  obtain ⟨c, d, _, he⟩ := h none rfl
  simp [fact_checker_startup] at he

/-- Claim C1 (amended): the arxiv_genius_agent and researcher scripts
check GOOGLE_API_KEY before any run and exit with status 1 and a
diagnostic when it is absent or empty (and proceed when it is non-empty);
the fact_checker and recommender scripts perform no credential check and
proceed to the agent run regardless of the variable. -/
theorem C1_credential_checks :
    checksCredential arxiv_startup ∧ checksCredential researcher_startup ∧
    (∀ k, fact_checker_startup k = .proceed) ∧
    (∀ k, recommender_startup k = .proceed) ∧
    (∀ s, s ≠ "" → arxiv_startup (some s) = .proceed) ∧
    (∀ s, s ≠ "" → researcher_startup (some s) = .proceed) := by
  refine ⟨?_, ?_, fun _ => rfl, fun _ => rfl, ?_, ?_⟩
  · intro key hk
    exact ⟨1, "🔴 ERROR: Set your GOOGLE_API_KEY environment variable",
      one_ne_zero, by simp [arxiv_startup, hk]⟩
  · intro key hk
    exact ⟨1, "❌ Error: GOOGLE_API_KEY environment variable is not set!",
      one_ne_zero, by simp [researcher_startup, hk]⟩
  · intro s hs
    simp [arxiv_startup, hs]
  · intro s hs
    simp [researcher_startup, hs]

/-- Claim C1, witness: the amended statement evaluated at concrete
environments. -/
theorem C1_witness :
    (∃ c d, c ≠ 0 ∧ arxiv_startup none = .exitWith c d) ∧
    (∃ c d, c ≠ 0 ∧ researcher_startup (some "") = .exitWith c d) ∧
    fact_checker_startup none = .proceed ∧
    recommender_startup none = .proceed ∧
    arxiv_startup (some "k3y") = .proceed :=
  ⟨C1_credential_checks.1 none rfl, C1_credential_checks.2.1 (some "") rfl,
    C1_credential_checks.2.2.1 none, C1_credential_checks.2.2.2.1 none,
    C1_credential_checks.2.2.2.2.1 "k3y" (by decide)⟩

/-- Claim C2, counterexample: when the first strategy of the arxiv
fallback chain fails, the next strategy is invoked with the prompt "Tell
me about the '...' paper", which differs from the original caller prompt
"Analyze the paper: ..." — the chain does not reuse the same prompt
text. -/
theorem C2_counterexample :
    (arxivRun ⟨.raises "network error", .ok, .ok, .ok⟩).1 =
      [.strategyCall prompt1 true, .failureLogged "network error",
       .kbLoadCall true, .strategyCall prompt2 true] ∧
    prompt2 ≠ prompt1 :=
  ⟨rfl, by decide⟩

/-- Claim C2 (amended): after a failure, each subsequent strategy of the
arxiv fallback chain starts from a fresh conversation state, but is
invoked with a different prompt text — a reformulation naming the same
fixed paper title — not with the identical original caller prompt. -/
theorem C2_fresh_state_new_prompt :
    (∀ w : ArxivWorld, allFresh (arxivRun w).1 = true) ∧
    prompt1 ≠ prompt2 ∧ prompt1 ≠ prompt3 ∧ prompt2 ≠ prompt3 ∧
    occursIn paper_title.data prompt1.data = true ∧
    occursIn paper_title.data prompt2.data = true ∧
    occursIn paper_title.data prompt3.data = true := by
  refine ⟨?_, by decide, by decide, by decide, by decide, by decide, by decide⟩
  rintro ⟨a, l, r, f⟩
  cases a <;> cases l <;> cases r <;> cases f <;>
    simp [arxivRun, kbPart, fallbackPart, allFresh]

/-- Claim C2, witness: freshness of every strategy invocation on a
concrete failing world. -/
theorem C2_witness :
    allFresh (arxivRun ⟨.raises "err", .raises "err2", .ok, .ok⟩).1 = true :=
  C2_fresh_state_new_prompt.1 ⟨.raises "err", .raises "err2", .ok, .ok⟩

/-- The world in which every strategy of the arxiv chain fails. -/
def wAllFail : ArxivWorld := ⟨.raises "e1", .raises "e2", .ok, .raises "e3"⟩

/-- Claim C3, counterexample: when every strategy fails, the arxiv
`__main__` block does not return a structured AllStrategiesExhausted
failure — the last strategy's call sits in no try block, so its exception
escapes raw and the process crashes. -/
theorem C3_counterexample :
    (arxivRun wAllFail).2 = .crashed "e3" ∧
    Event.uncaughtException "e3" ∈ (arxivRun wAllFail).1 := by
  exact ⟨rfl, by decide⟩

/-- Claim C3 (amended): whenever some strategy of the arxiv chain
succeeds, the script's outcome is that strategy's success and exactly one
failure is logged per preceding failed strategy; but when every strategy
fails, the final strategy's exception escapes uncaught (the chain yields
no structured AllStrategiesExhausted failure). -/
theorem C3_chain_result : ∀ w : ArxivWorld,
    countLogged (arxivRun w).1 =
      (if w.agentRun.fails then (if kbFails w then 2 else 1) else 0) ∧
    countUncaught (arxivRun w).1 =
      (if w.agentRun.fails && kbFails w && w.fallbackRun.fails then 1 else 0) ∧
    ((∃ p, (arxivRun w).2 = .succeeded p) ↔
      (w.agentRun.fails && kbFails w && w.fallbackRun.fails) = false) ∧
    (w.agentRun.fails = false → (arxivRun w).2 = .succeeded prompt1) ∧
    (w.agentRun.fails = true → kbFails w = false →
      (arxivRun w).2 = .succeeded prompt2) ∧
    (w.agentRun.fails = true → kbFails w = true → w.fallbackRun.fails = false →
      (arxivRun w).2 = .succeeded prompt3) := by
  rintro ⟨a, l, r, f⟩
  cases a <;> cases l <;> cases r <;> cases f <;>
    simp [arxivRun, kbPart, fallbackPart, countLogged, countUncaught,
      kbFails, CallOutcome.fails]

/-- Claim C3, witness: the amended statement evaluated where the first
strategy fails and the knowledge-base strategy succeeds — one logged
failure, no uncaught exception, the knowledge-base strategy's success. -/
theorem C3_witness :
    (arxivRun ⟨.raises "a", .ok, .ok, .ok⟩).2 = .succeeded prompt2 ∧
    countLogged (arxivRun ⟨.raises "a", .ok, .ok, .ok⟩).1 = 1 ∧
    countUncaught (arxivRun ⟨.raises "a", .ok, .ok, .ok⟩).1 = 0 :=
  ⟨(C3_chain_result ⟨.raises "a", .ok, .ok, .ok⟩).2.2.2.2.1 rfl rfl,
   by simpa using (C3_chain_result ⟨.raises "a", .ok, .ok, .ok⟩).1,
   by simpa using (C3_chain_result ⟨.raises "a", .ok, .ok, .ok⟩).2.1⟩

/-- One recommendation validates exactly when all its required fields are
present. -/
theorem validateRec_isSome (r : RawRecommendation) :
    (validateRec r).isSome = allRecPresent r := by
  obtain ⟨t, y, s, re⟩ := r
  cases t <;> cases y <;> cases s <;> cases re <;>
    simp [validateRec, allRecPresent]

/-- A recommendation list validates exactly when every element is fully
populated. -/
theorem validateRecs_isSome (l : List RawRecommendation) :
    (validateRecs l).isSome = allRecsPresent l := by
  induction l with
  | nil => simp [validateRecs, allRecsPresent]
  | cons r rs ih =>
      cases hr : validateRec r with
      | none =>
          have : allRecPresent r = false := by
            simpa [hr] using (validateRec_isSome r).symm
          simp [validateRecs, allRecsPresent, hr, this]
      | some v =>
          have hp : allRecPresent r = true := by
            simpa [hr] using (validateRec_isSome r).symm
          cases hrs : validateRecs rs with
          | none => simp [validateRecs, allRecsPresent, hr, hrs, hp, ← ih]
          | some vs => simp [validateRecs, allRecsPresent, hr, hrs, hp, ← ih]

/-- Element-wise validation preserves the list length. -/
theorem validateRecs_length :
    ∀ (l : List RawRecommendation) (vs : List Recommendation),
      validateRecs l = some vs → vs.length = l.length := by
  intro l
  induction l with
  | nil => intro vs h; simp [validateRecs] at h; simp [← h]
  | cons r rs ih =>
      intro vs h
      cases hr : validateRec r with
      | none => simp [validateRecs, hr] at h
      | some v =>
          cases hrs : validateRecs rs with
          | none => simp [validateRecs, hr, hrs] at h
          | some ws =>
              simp [validateRecs, hr, hrs] at h
              simp [← h, ih ws hrs]

/-- Claim C4: for both schema-constrained agents (researcher's
`ResearchPaperNotes`, recommender's `RecommendationList`) validation is
all-or-nothing — a fully populated model output validates to a Success
whose payload carries exactly the supplied field values, and a model
output missing any required field yields `SchemaViolation` for the whole
result; no partially-filled object is ever returned. -/
theorem C4_schema_all_or_nothing :
    ∀ (r : RawNotes) (q : RawRecommendationList),
    (allNotesPresent r = true →
      validateNotes r = .Success
        ⟨r.title.getD "", r.tldr.getD "", r.key_contributions.getD [],
         r.methodology_simplified.getD "", r.impact_and_significance.getD "",
         r.original_paper_url.getD ""⟩) ∧
    (allNotesPresent r = false →
      validateNotes r = .Failure .SchemaViolation "missing required field") ∧
    ((∃ v, validateRecList q = .Success v) ↔ recListAllPresent q = true) ∧
    (recListAllPresent q = false →
      validateRecList q = .Failure .SchemaViolation "missing required field") ∧
    (∀ v, validateRecList q = .Success v →
      v.recommendations.length = (q.recommendations.getD []).length) := by
  intro r q
  obtain ⟨t, tl, kc, ms, im, u⟩ := r
  obtain ⟨recs⟩ := q
  refine ⟨?_, ?_, ?_, ?_, ?_⟩
  · cases t <;> cases tl <;> cases kc <;> cases ms <;> cases im <;> cases u <;>
      simp [allNotesPresent, validateNotes]
  · cases t <;> cases tl <;> cases kc <;> cases ms <;> cases im <;> cases u <;>
      simp [allNotesPresent, validateNotes]
  · cases recs with
    | none => simp [validateRecList, recListAllPresent]
    | some l =>
        cases hl : validateRecs l with
        | none =>
            have : allRecsPresent l = false := by
              simpa [hl] using (validateRecs_isSome l).symm
            simp [validateRecList, recListAllPresent, hl, this]
        | some vs =>
            have : allRecsPresent l = true := by
              simpa [hl] using (validateRecs_isSome l).symm
            simp [validateRecList, recListAllPresent, hl, this]
  · cases recs with
    | none => simp [validateRecList, recListAllPresent]
    | some l =>
        intro hfalse
        have hl : validateRecs l = none := by
          have := validateRecs_isSome l
          simp [recListAllPresent] at hfalse
          simpa [hfalse] using this
        simp [validateRecList, hl]
  · intro v hv
    cases recs with
    | none => simp [validateRecList] at hv
    | some l =>
        cases hl : validateRecs l with
        | none => simp [validateRecList, hl] at hv
        | some vs =>
            simp [validateRecList, hl] at hv
            simp [← hv, validateRecs_length l vs hl]

/-- Claim C4, witness: the validators evaluated on a fully populated raw
output and on one with a missing required field. -/
theorem C4_witness :
    validateNotes ⟨some "T", some "S", some ["a"], some "M", some "I", some "U"⟩ =
      .Success ⟨"T", "S", ["a"], "M", "I", "U"⟩ ∧
    validateNotes ⟨some "T", none, some ["a"], some "M", some "I", some "U"⟩ =
      .Failure .SchemaViolation "missing required field" ∧
    validateRecList ⟨some [⟨some "D", some 1965, none, some "R"⟩]⟩ =
      .Failure .SchemaViolation "missing required field" :=
  ⟨(C4_schema_all_or_nothing
      ⟨some "T", some "S", some ["a"], some "M", some "I", some "U"⟩ ⟨none⟩).1 rfl,
   (C4_schema_all_or_nothing
      ⟨some "T", none, some ["a"], some "M", some "I", some "U"⟩ ⟨none⟩).2.1 rfl,
   (C4_schema_all_or_nothing
      ⟨some "T", some "S", some ["a"], some "M", some "I", some "U"⟩
      ⟨some [⟨some "D", some 1965, none, some "R"⟩]⟩).2.2.2.1 rfl⟩

/-- Claim C5: with the source's retry configuration (base delay 3,
multiplier 2, 3 attempts) the delay before attempt k (k ≥ 2) is
`base_delay * backoff_multiplier^(k-2)`, so the slept delays are exactly
[3, 6] for the transitions 1→2 and 2→3, and there are only those two
delays (none before attempt 1). -/
theorem C5_backoff_sequence :
    delaySequence arxivRetryBase 2 arxivRetryAttempts = [3, 6] ∧
    (delaySequence arxivRetryBase 2 arxivRetryAttempts).length =
      arxivRetryAttempts - 1 ∧
    (∀ k, 2 ≤ k → backoffDelay arxivRetryBase 2 k = 3 * 2 ^ (k - 2)) :=
  ⟨by decide, by decide, fun _ _ => rfl⟩

/-- Claim C5, witness: the delay formula evaluated at attempt 2. -/
theorem C5_witness :
    delaySequence arxivRetryBase 2 arxivRetryAttempts = [3, 6] ∧
    backoffDelay arxivRetryBase 2 2 = 3 * 2 ^ (2 - 2) :=
  ⟨C5_backoff_sequence.1, C5_backoff_sequence.2.2 2 (by decide)⟩

/-- Claim C6: a terminal `RunResult` is exactly one of `Success(payload)`
or `Failure(kind, message)` — the two cases are exhaustive and mutually
exclusive. -/
theorem C6_runresult_exclusive : ∀ (α : Type) (r : RunResult α),
    ((∃ p, r = .Success p) ∨ (∃ k m, r = .Failure k m)) ∧
    ¬((∃ p, r = .Success p) ∧ (∃ k m, r = .Failure k m)) := by
  intro α r
  cases r with
  | Success p =>
      refine ⟨Or.inl ⟨p, rfl⟩, ?_⟩
      rintro ⟨_, ⟨k, m, hf⟩⟩
      cases hf
  | Failure k m =>
      refine ⟨Or.inr ⟨k, m, rfl⟩, ?_⟩
      rintro ⟨⟨p, hp⟩, _⟩
      cases hp

/-- Claim C6, witness: the dichotomy evaluated at a concrete result. -/
theorem C6_witness :
    ((∃ p, (RunResult.Success "ok" : RunResult String) = .Success p) ∨
      (∃ k m, (RunResult.Success "ok" : RunResult String) = .Failure k m)) ∧
    ¬((∃ p, (RunResult.Success "ok" : RunResult String) = .Success p) ∧
      (∃ k m, (RunResult.Success "ok" : RunResult String) = .Failure k m)) :=
  C6_runresult_exclusive String (.Success "ok")

/-- The loop never performs more round-trips than `used` plus the
remaining budget. -/
theorem orchLoop_rounds_le (model : List Turn → ModelStep)
    (dispatch : String → Option (String → String)) :
    ∀ fuel conv used,
      (orchLoop model dispatch fuel conv used).rounds ≤ used + fuel := by
  intro fuel
  induction fuel with
  | zero =>
      intro conv used
      cases h : model conv <;> simp [orchLoop, h, LoopResult.rounds]
  | succ n ih =>
      intro conv used
      cases h : model conv with
      | finalAnswer t => simp [orchLoop, h, LoopResult.rounds]
      | toolCall tool args =>
          cases hd : dispatch tool with
          | none => simp [orchLoop, h, hd, LoopResult.rounds]
          | some f =>
              have hrec := ih (conv ++ [.toolResult tool (f args)]) (used + 1)
              simp [orchLoop, h, hd]
              omega

/-- Against a model that requests a known tool on every step, the loop
spends its whole budget and fails with `IterationLimitExceeded`. -/
theorem orchLoop_alwaysTool (dispatch : String → Option (String → String))
    (tool args : String) (f : String → String) (hf : dispatch tool = some f) :
    ∀ fuel conv used,
      orchLoop (fun _ => ModelStep.toolCall tool args) dispatch fuel conv used =
        .failed .IterationLimitExceeded (used + fuel) := by
  intro fuel
  induction fuel with
  | zero => intro conv used; simp [orchLoop]
  | succ n ih =>
      intro conv used
      simp [orchLoop, hf, ih]
      omega

/-- Claim C7: the Orchestrator performs at most the configured iteration
cap of tool-call round-trips in any run, and against a model that
requests a (registered) tool on every step the run ends with
`Failed(IterationLimitExceeded)` after exactly that cap of
round-trips. -/
theorem C7_iteration_cap :
    ∀ (model : List Turn → ModelStep)
      (dispatch : String → Option (String → String))
      (cap : Nat) (input tool args : String) (f : String → String),
    (orchRun model dispatch cap input).rounds ≤ cap ∧
    (dispatch tool = some f →
      orchRun (fun _ => ModelStep.toolCall tool args) dispatch cap input =
        .failed .IterationLimitExceeded cap) := by
  intro model dispatch cap input tool args f
  constructor
  · simpa using orchLoop_rounds_le model dispatch cap [.callerInput input] 0
  · intro hf
    simpa using orchLoop_alwaysTool dispatch tool args f hf cap [.callerInput input] 0

/-- Claim C7, witness: a cap of 3 against an always-tool-calling model on
a singleton registry. -/
theorem C7_witness :
    (orchRun (fun _ => ModelStep.toolCall "t" "") (fun _ => some id) 3 "go").rounds ≤ 3 ∧
    orchRun (fun _ => ModelStep.toolCall "t" "") (fun _ => some id) 3 "go" =
      .failed .IterationLimitExceeded 3 :=
  ⟨(C7_iteration_cap (fun _ => ModelStep.toolCall "t" "") (fun _ => some id)
      3 "go" "t" "" id).1,
   (C7_iteration_cap (fun _ => ModelStep.toolCall "t" "") (fun _ => some id)
      3 "go" "t" "" id).2 rfl⟩

/-- Claim C8: a ToolCallRequest naming a tool absent from the registry
ends the orchestrated run immediately as `UnknownTool` with zero
completed round-trips, and RetryPolicy never retries an `UnknownTool`
failure — it makes exactly one attempt regardless of the configured
`max_attempts`. -/
theorem C8_unknown_tool_no_retry :
    ∀ (model : List Turn → ModelStep)
      (dispatch : String → Option (String → String))
      (cap : Nat) (input tool args msg : String) (n : Nat),
    model [Turn.callerInput input] = ModelStep.toolCall tool args →
    dispatch tool = none →
    1 ≤ cap → 1 ≤ n →
    orchRun model dispatch cap input = .failed .UnknownTool 0 ∧
    runWithRetry (fun _ => RunResult.Failure .UnknownTool msg) n =
      (1, RunResult.Failure .UnknownTool msg) := by
  intro model dispatch cap input tool args msg n hm hd hcap hn
  constructor
  · obtain ⟨c, rfl⟩ : ∃ c, cap = c + 1 := ⟨cap - 1, by omega⟩
    simp [orchRun, orchLoop, hm, hd]
  · obtain ⟨m, rfl⟩ : ∃ m, n = m + 1 := ⟨n - 1, by omega⟩
    simp [runWithRetry, retryAux, retryableAfter]

/-- Claim C8, witness: an absent tool under the source's configured
`retries=3`: one attempt, `UnknownTool`, no retries. -/
theorem C8_witness :
    orchRun (fun _ => ModelStep.toolCall "missing" "") (fun _ => none) 3 "go" =
      .failed .UnknownTool 0 ∧
    runWithRetry (fun _ => RunResult.Failure .UnknownTool "no such tool")
        arxivRetryAttempts =
      (1, RunResult.Failure .UnknownTool "no such tool") :=
  C8_unknown_tool_no_retry (fun _ => ModelStep.toolCall "missing" "")
    (fun _ => none) 3 "go" "missing" "" "no such tool" arxivRetryAttempts
    rfl rfl (by decide) (by decide)

/-- Claim C9: the researcher script attempts its run with exactly one
strategy; on any exception it prints a diagnostic and the process ends
normally with exit status 0 — no alternative agent configuration is ever
tried. -/
theorem C9_single_strategy : ∀ o : ResearcherRunOutcome,
    (researcherMain o).2 = 0 ∧
    countAttempts (researcherMain o).1 = 1 ∧
    (∀ m, ScriptEvent.printedDiagnostic ("❌ Error occurred: " ++ m) ∈
      (researcherMain (.raises m)).1) := by
  intro o
  refine ⟨?_, ?_, ?_⟩
  · cases o <;> rfl
  · cases o <;> rfl
  · intro m
    simp [researcherMain]

/-- Claim C9, witness: the researcher `__main__` evaluated at a raising
run — exit status 0, one attempt, diagnostic printed. -/
theorem C9_witness :
    (researcherMain (.raises "boom")).2 = 0 ∧
    countAttempts (researcherMain (.raises "boom")).1 = 1 ∧
    ScriptEvent.printedDiagnostic ("❌ Error occurred: " ++ "boom") ∈
      (researcherMain (.raises "boom")).1 :=
  ⟨(C9_single_strategy (.raises "boom")).1,
   (C9_single_strategy (.raises "boom")).2.1,
   (C9_single_strategy (.raises "boom")).2.2 "boom"⟩

/-- Claim C10: in the arxiv script, every trace that reaches the
knowledge-base query has loaded the vector store with `recreate=True`
immediately beforehand, and no load ever happens with `recreate=False`
— the fallback strategy reuses no earlier knowledge-base state. -/
theorem C10_kb_rebuilt_fresh : ∀ w : ArxivWorld,
    kbFreshlyLoaded (arxivRun w).1 = true ∧
    noStaleLoad (arxivRun w).1 = true := by
  rintro ⟨a, l, r, f⟩
  cases a <;> cases l <;> cases r <;> cases f <;>
    simp [arxivRun, kbPart, fallbackPart, kbFreshlyLoaded, pairsOk,
      isKbQuery, isRecreateLoad, noStaleLoad] <;> try decide

/-- Claim C10, witness: the knowledge-base strategy's trace on a world
where the first strategy failed — the query is immediately preceded by a
`recreate=True` load and no stale load occurs. -/
theorem C10_witness :
    kbFreshlyLoaded (arxivRun ⟨.raises "x", .ok, .ok, .ok⟩).1 = true ∧
    noStaleLoad (arxivRun ⟨.raises "x", .ok, .ok, .ok⟩).1 = true :=
  C10_kb_rebuilt_fresh ⟨.raises "x", .ok, .ok, .ok⟩
